import Mathlib

/-!
Shallow embedding of the EAN-13 sequence generator of this repository.

The repository contains three variants of the generator component:
  - a free 12-digit base variant reading the base code from a text field and
    persisting the last generated base code to local storage;
  - a CNPJ-prefixed variant building the base as a 3-digit country code,
    5 CNPJ digits and a 4-digit sequential tail, persisting the last base code;
  - a database-backed variant reading a persisted cursor, generating a batch
    and writing back the advanced cursor.
All three share the check-digit routine `calculateEanCheckDigit`.

JavaScript-level behaviour relevant to the embedded functions:
  - `Number(c)` for a one-character string yields the digit value for an
    ASCII digit, `0` for a whitespace character (string-to-number conversion
    trims whitespace and converts the empty remainder to zero), and `NaN`
    otherwise.  We model a JS number that can be `NaN` as `Option Nat`
    (all values arising here are non-negative integers below 2^53).
  - indexing past the end of an array yields `undefined`, and arithmetic on
    `undefined` yields `NaN`; we model the read with a `none` default.
  - `parseInt` on an all-digit decimal string yields its numeric value.
  - `String.prototype.padStart(n, c)` left-pads to length `n`, returning the
    string unchanged when it is already at least that long.
  - `Number.prototype.toString()` renders the decimal numeral, which for a
    natural number agrees with `Nat.repr`.
-/

/-- Value of an ASCII digit character (`c.toNat - 48`, as produced by the
implicit number conversion of `digits[i]`). -/
def digitVal (c : Char) : Nat := c.toNat - 48

/-- The characters treated as whitespace by the ECMAScript string-to-number
conversion (WhiteSpace and LineTerminator code points). -/
def jsWhitespaceChar (c : Char) : Bool :=
  c.toNat ∈ [0x9, 0xa, 0xb, 0xc, 0xd, 0x20, 0xa0, 0x1680,
    0x2000, 0x2001, 0x2002, 0x2003, 0x2004, 0x2005, 0x2006, 0x2007,
    0x2008, 0x2009, 0x200a, 0x2028, 0x2029, 0x202f, 0x205f, 0x3000, 0xfeff]

/-- `Number(c)` on a one-character string: digit value for a decimal digit,
`0` for whitespace, `NaN` (modelled as `none`) otherwise. -/
def jsNumberOfChar (c : Char) : Option Nat :=
  if c.isDigit then some (digitVal c)
  else if jsWhitespaceChar c then some 0
  else none

/-- JS addition on possibly-`NaN` numbers: `NaN` is absorbing. -/
def jsAdd : Option Nat → Option Nat → Option Nat
  | some a, some b => some (a + b)
  | _, _ => none

/-- JS multiplication on possibly-`NaN` numbers: `NaN` is absorbing. -/
def jsMul : Option Nat → Option Nat → Option Nat
  | some a, some b => some (a * b)
  | _, _ => none

/-- Embedding of `calculateEanCheckDigit` (identical in all three source
variants): split the string into characters, convert each with `Number`,
sum the first twelve values weighted by 1 at even indices and 3 at odd
indices, and render `(10 - sum % 10) % 10`.  A read past the end of the
digit array yields `undefined`, hence `NaN`; a `NaN` sum renders as
`"NaN"`. -/
def calculateEanCheckDigit (code : String) : String :=
  let digits := code.data.map jsNumberOfChar
  let sum := (List.range 12).foldl
    (fun s i => jsAdd s (jsMul (digits.getD i none)
      (some (if i % 2 = 0 then 1 else 3)))) (some 0)
  match sum with
  | none => "NaN"
  | some s => Nat.repr ((10 - s % 10) % 10)

/-- `parseInt` restricted to all-digit decimal strings: the decimal value of
the digit string. -/
def parseIntDigits (s : String) : Nat :=
  s.data.foldl (fun acc c => acc * 10 + digitVal c) 0

/-- `String.prototype.padStart(n, c)`. -/
def padStart (s : String) (n : Nat) (c : Char) : String :=
  String.mk (List.replicate (n - s.length) c) ++ s

/-- Fuel-free model of the decimal rendering loop behind `Nat.repr`: the
base-10 digits of `m`, most significant first. -/
def decRender (m : Nat) : List Char :=
  if h : m / 10 = 0 then [Nat.digitChar (m % 10)]
  else decRender (m / 10) ++ [Nat.digitChar (m % 10)]
termination_by m
decreasing_by omega

/-- A generated code: `code` is the full EAN-13 string, `baseCode` the
12-digit body it was built from. -/
structure EanCode where
  code : String
  baseCode : String
deriving Repr, DecidableEq, Inhabited

/-- The generation loop of the free 12-digit variant: for `i` from `0` to
`qty - 1`, format `startNumber + i` as a zero-padded 12-digit string, append
its check digit, and collect the pair. -/
def generateEans (startNumber qty : Nat) : List EanCode :=
  (List.range qty).map fun i =>
    let currentBase := padStart (Nat.repr (startNumber + i)) 12 '0'
    { code := currentBase ++ calculateEanCheckDigit currentBase
      baseCode := currentBase }

/-- `codes[codes.length - 1].baseCode`, the last generated base code. -/
def lastGeneratedBase (codes : List EanCode) : String :=
  (codes.getD (codes.length - 1) default).baseCode

/-- The advanced cursor written back by the database-backed variant:
`(parseInt(lastGenerated) + 1).toString().padStart(12, "0")`. -/
def nextBaseAfter (startNumber qty : Nat) : String :=
  padStart (Nat.repr (parseIntDigits (lastGeneratedBase (generateEans startNumber qty)) + 1)) 12 '0'

/-- `/^\d+$/.test(s)`: non-empty and all ASCII digits. -/
def jsTestAllDigits (s : String) : Bool :=
  !s.isEmpty && s.data.all Char.isDigit

/-- Client-held state of the free 12-digit variant: the persisted last base
code (local storage) and the list of displayed codes. -/
structure GenState where
  lastBaseCode : String
  generatedCodes : List EanCode
deriving Repr, DecidableEq, Inhabited

/-- The `generateEans` handler of the free 12-digit variant: validate the
base code (exactly 12 characters, all digits) and the parsed quantity
(between 1 and 1000); on failure show an error toast and leave the state
unchanged; on success generate the batch, persist the last generated base
code and display the batch.  The returned flag is `true` when a validation
error was raised. -/
def generateEansStep (baseCode : String) (qty : Int) (st : GenState) :
    GenState × Bool :=
  if baseCode.length ≠ 12 then (st, true)
  else if ¬ jsTestAllDigits baseCode then (st, true)
  else if qty < 1 ∨ qty > 1000 then (st, true)
  else
    let codes := generateEans (parseIntDigits baseCode) qty.toNat
    ({ lastBaseCode := lastGeneratedBase codes, generatedCodes := codes }, false)

/-- Cursor reuse test of the CNPJ-prefixed variant:
`lastBaseCode && lastBaseCode.startsWith(prefix + cnpjDigits)` — the stored
cursor is non-empty and starts with the configured 8-character head. -/
def jsStartsWith (s p : String) : Bool :=
  s.data.take p.data.length = p.data

/-- `s.slice(a, b)` for `0 ≤ a ≤ b`. -/
def strSlice (s : String) (a b : Nat) : String :=
  String.mk ((s.data.drop a).take (b - a))

/-- Start of the sequential tail in the CNPJ-prefixed variant: when the
persisted cursor is non-empty and starts with the configured prefix and
CNPJ digits, continue from `parseInt(lastBaseCode.slice(8, 12)) + 1`;
otherwise start from `0`. -/
def startNumberForCursor (lastBase pfx cnpjDigits : String) : Nat :=
  if lastBase ≠ "" ∧ jsStartsWith lastBase (pfx ++ cnpjDigits) then
    parseIntDigits (strSlice lastBase 8 12) + 1
  else 0

/-- Generation loop of the CNPJ-prefixed variant: the base code is the
3-digit country code, the 5 CNPJ digits and `startNumber + i` zero-padded
to 4 characters. -/
def generateEansPrefixed (pfx cnpjDigits : String) (startNumber qty : Nat) :
    List EanCode :=
  (List.range qty).map fun i =>
    let fourDigits := padStart (Nat.repr (startNumber + i)) 4 '0'
    let baseCode := pfx ++ cnpjDigits ++ fourDigits
    { code := baseCode ++ calculateEanCheckDigit baseCode
      baseCode := baseCode }

/-- The `generateEans` handler of the CNPJ-prefixed variant: validate the
CNPJ digits (exactly 5 characters) and the quantity; derive the tail start
from the persisted cursor; generate; persist the last generated base code.
The flag is `true` when a validation error was raised. -/
def generateEansCnpjStep (pfx cnpjDigits : String) (qty : Int)
    (st : GenState) : GenState × Bool :=
  if cnpjDigits.length ≠ 5 then (st, true)
  else if qty < 1 ∨ qty > 1000 then (st, true)
  else
    let startNumber := startNumberForCursor st.lastBaseCode pfx cnpjDigits
    let codes := generateEansPrefixed pfx cnpjDigits startNumber qty.toNat
    ({ lastBaseCode := lastGeneratedBase codes, generatedCodes := codes }, false)

/-- A saved base record of the database-backed variant. -/
structure SavedEanBase where
  id : Nat
  name : String
  cnpj_prefix : String
  last_base_code : String
deriving Repr, DecidableEq, Inhabited

/-- Client-held state of the database-backed variant: the saved base list,
the selected base, the displayed codes and the toasts raised by the last
generation (`errorToast` models the "Erro ao salvar último código" warning). -/
structure CloudGenState where
  savedBases : List SavedEanBase
  selectedBase : SavedEanBase
  generatedCodes : List EanCode
  errorToast : Bool
  successToast : Bool
deriving Repr, DecidableEq, Inhabited

/-- The `generateEans` handler of the database-backed variant.  `writeOk`
models the outcome of the cursor update issued to the database: when the
write succeeds, the selected base and its saved-bases entry advance to
`nextBaseCode`; when it fails, the catch branch raises the error toast and
the local cursor state is left as it was.  In both cases the computed batch
is displayed and the success toast raised afterwards. -/
def generateEansCloud (qty : Int) (writeOk : Bool) (st : CloudGenState) :
    CloudGenState :=
  if qty < 1 ∨ qty > 1000 then st
  else
    let startNumber := parseIntDigits st.selectedBase.last_base_code
    let codes := generateEans startNumber qty.toNat
    let nextBaseCode :=
      padStart (Nat.repr (parseIntDigits (lastGeneratedBase codes) + 1)) 12 '0'
    if writeOk then
      let updatedBase := { st.selectedBase with last_base_code := nextBaseCode }
      { savedBases := st.savedBases.map
          (fun b => if b.id = st.selectedBase.id then updatedBase else b)
        selectedBase := updatedBase
        generatedCodes := codes
        errorToast := st.errorToast
        successToast := true }
    else
      { st with generatedCodes := codes, errorToast := true, successToast := true }

/-- The weighted checksum of the first thirteen characters of a string read
as digits: weight 3 at odd 0-based positions, weight 1 at even ones.  This is
the EAN-13 checksum of a 13-digit code. -/
def eanChecksum13 (s : String) : Nat :=
  (List.range 13).foldl
    (fun acc i => acc + digitVal (s.data.getD i '0') * (if i % 2 = 1 then 3 else 1)) 0

section ReprFacts

/-- The characters produced by `Nat.digitChar` below ten are decimal digits. -/
theorem digitChar_isDigit {m : Nat} (hm : m < 10) :
    (Nat.digitChar m).isDigit = true := by
  interval_cases m <;> decide

/-- `digitVal` inverts `Nat.digitChar` below ten. -/
theorem digitVal_digitChar {m : Nat} (hm : m < 10) :
    digitVal (Nat.digitChar m) = m := by
  interval_cases m <;> decide

/-- With fuel above the rendered number, `Nat.toDigitsCore` only pushes its
output in front of whatever the accumulator already holds. -/
theorem toDigitsCore_acc (f : Nat) : ∀ m cs, m < f →
    Nat.toDigitsCore 10 f m cs = Nat.toDigitsCore 10 f m [] ++ cs := by
  induction f with
  | zero =>
    intro m cs hm
    cases Nat.not_lt_zero m hm
  | succ f ih =>
    intro m cs hm
    have hl : Nat.toDigitsCore 10 (f + 1) m cs =
        if m / 10 = 0 then Nat.digitChar (m % 10) :: cs
        else Nat.toDigitsCore 10 f (m / 10) (Nat.digitChar (m % 10) :: cs) := rfl
    have hr : Nat.toDigitsCore 10 (f + 1) m [] =
        if m / 10 = 0 then [Nat.digitChar (m % 10)]
        else Nat.toDigitsCore 10 f (m / 10) [Nat.digitChar (m % 10)] := rfl
    rw [hl, hr]
    by_cases hdiv : m / 10 = 0
    · rw [if_pos hdiv, if_pos hdiv]
      rfl
    · rw [if_neg hdiv, if_neg hdiv,
        ih (m / 10) (Nat.digitChar (m % 10) :: cs) (by omega),
        ih (m / 10) [Nat.digitChar (m % 10)] (by omega),
        List.append_assoc]
      rfl

/-- The fuel-based rendering loop agrees with its fuel-free model. -/
theorem toDigitsCore_decRender : ∀ f m, m < f →
    Nat.toDigitsCore 10 f m [] = decRender m := by
  intro f
  induction f with
  | zero =>
    intro m hm
    cases Nat.not_lt_zero m hm
  | succ f ih =>
    intro m hm
    have hr : Nat.toDigitsCore 10 (f + 1) m [] =
        if m / 10 = 0 then [Nat.digitChar (m % 10)]
        else Nat.toDigitsCore 10 f (m / 10) [Nat.digitChar (m % 10)] := rfl
    rw [hr, decRender]
    by_cases hdiv : m / 10 = 0
    · rw [if_pos hdiv, dif_pos hdiv]
    · rw [if_neg hdiv, dif_neg hdiv,
        toDigitsCore_acc f (m / 10) [Nat.digitChar (m % 10)] (by omega),
        ih (m / 10) (by omega)]

/-- Every character the renderer emits is a decimal digit. -/
theorem decRender_digits (m : Nat) : ∀ c ∈ decRender m, c.isDigit = true := by
  induction m using Nat.strong_induction_on with
  | _ m ih =>
    rw [decRender]
    by_cases hdiv : m / 10 = 0
    · rw [dif_pos hdiv]
      intro c hc
      rw [List.mem_singleton] at hc
      subst hc
      exact digitChar_isDigit (by omega)
    · rw [dif_neg hdiv]
      intro c hc
      rcases List.mem_append.mp hc with hc | hc
      · exact ih (m / 10) (by omega) c hc
      · rw [List.mem_singleton] at hc
        subst hc
        exact digitChar_isDigit (by omega)

/-- Folding the rendered digits back through the decimal accumulator
recovers the number. -/
theorem decRender_val (m : Nat) :
    (decRender m).foldl (fun a c => a * 10 + digitVal c) 0 = m := by
  induction m using Nat.strong_induction_on with
  | _ m ih =>
    rw [decRender]
    by_cases hdiv : m / 10 = 0
    · rw [dif_pos hdiv]
      show 0 * 10 + digitVal (Nat.digitChar (m % 10)) = m
      rw [digitVal_digitChar (by omega)]
      omega
    · rw [dif_neg hdiv, List.foldl_append, ih (m / 10) (by omega)]
      show m / 10 * 10 + digitVal (Nat.digitChar (m % 10)) = m
      rw [digitVal_digitChar (by omega)]
      omega

/-- The renderer emits one character per decimal digit: its output length
is one more than the base-10 logarithm. -/
theorem decRender_length (m : Nat) :
    (decRender m).length = Nat.log 10 m + 1 := by
  induction m using Nat.strong_induction_on with
  | _ m ih =>
    rw [decRender]
    by_cases hdiv : m / 10 = 0
    · rw [dif_pos hdiv, List.length_singleton,
        Nat.log_eq_zero_iff.mpr (Or.inl (by omega))]
    · rw [dif_neg hdiv, List.length_append, ih (m / 10) (by omega),
        List.length_singleton, Nat.log_div_base]
      have hpos : 0 < Nat.log 10 m := Nat.log_pos (by omega) (by omega)
      omega

/-- The decimal rendering of a natural number: non-empty, all digits, its
decimal value is the number, and its length is `log 10 n + 1`. -/
theorem repr_spec (n : Nat) :
    (Nat.repr n).data ≠ [] ∧ (∀ c ∈ (Nat.repr n).data, c.isDigit = true) ∧
      parseIntDigits (Nat.repr n) = n ∧
      (Nat.repr n).length = Nat.log 10 n + 1 := by
  have hd : (Nat.repr n).data = decRender n := by
    show (Nat.toDigits 10 n).asString.data = decRender n
    have ht : Nat.toDigits 10 n = Nat.toDigitsCore 10 (n + 1) n [] := rfl
    rw [ht, toDigitsCore_decRender (n + 1) n (Nat.lt_succ_self n)]
    rfl
  have hlen : (Nat.repr n).length = Nat.log 10 n + 1 := by
    show (Nat.repr n).data.length = _
    rw [hd, decRender_length]
  refine ⟨?_, ?_, ?_, hlen⟩
  · rw [hd]
    intro h0
    have hl0 := decRender_length n
    rw [h0] at hl0
    simp at hl0
  · rw [hd]
    exact decRender_digits n
  · show (Nat.repr n).data.foldl _ 0 = n
    rw [hd]
    exact decRender_val n

/-- Round trip: parsing the decimal rendering recovers the number. -/
theorem parseIntDigits_repr (n : Nat) : parseIntDigits (Nat.repr n) = n :=
  (repr_spec n).2.2.1

/-- Length of the decimal rendering. -/
theorem repr_length (n : Nat) : (Nat.repr n).length = Nat.log 10 n + 1 :=
  (repr_spec n).2.2.2

/-- A number below `10 ^ k` (with `k` positive) renders in at most `k`
characters. -/
theorem repr_length_le {n k : Nat} (hk : 0 < k) (h : n < 10 ^ k) :
    (Nat.repr n).length ≤ k := by
  rw [repr_length]
  rcases Nat.eq_zero_or_pos n with rfl | hn
  · simpa using hk
  · have := Nat.log_lt_of_lt_pow (by omega : n ≠ 0) h
    omega

/-- A number at least `10 ^ k` renders in more than `k` characters. -/
theorem repr_length_gt {n k : Nat} (h : 10 ^ k ≤ n) :
    k < (Nat.repr n).length := by
  rw [repr_length]
  have hpow : 1 ≤ 10 ^ k := Nat.one_le_pow k 10 (by omega)
  have := (Nat.pow_le_iff_le_log (by omega) (by omega : n ≠ 0)).mp h
  omega

end ReprFacts

section PadParseFacts

/-- The character list of a padded string. -/
theorem padStart_data (s : String) (n : Nat) (c : Char) :
    (padStart s n c).data = List.replicate (n - s.length) c ++ s.data := by
  cases s
  rfl

/-- Padding reaches exactly the requested length when the string is not
already longer. -/
theorem padStart_length (s : String) (n : Nat) (c : Char) :
    (padStart s n c).length = max n s.length := by
  have hs : s.length = s.data.length := rfl
  show (padStart s n c).data.length = _
  rw [padStart_data, List.length_append, List.length_replicate]
  omega

/-- The decimal left fold ignores leading zeros. -/
theorem foldl_replicate_zero (k : Nat) (a : Nat) :
    List.foldl (fun acc c => acc * 10 + digitVal c) a (List.replicate k '0') =
      a * 10 ^ k := by
  induction k generalizing a with
  | zero => simp
  | succ k ih =>
    rw [List.replicate_succ, List.foldl_cons, ih]
    have : digitVal '0' = 0 := rfl
    rw [this]
    ring

/-- Parsing is unaffected by zero padding. -/
theorem parseIntDigits_padStart (s : String) (n : Nat) :
    parseIntDigits (padStart s n '0') = parseIntDigits s := by
  show (padStart s n '0').data.foldl _ 0 = s.data.foldl _ 0
  rw [padStart_data, List.foldl_append, foldl_replicate_zero]
  simp

/-- Parsing the zero-padded decimal rendering recovers the number. -/
theorem parseIntDigits_pad_repr (m n : Nat) :
    parseIntDigits (padStart (Nat.repr m) n '0') = m := by
  rw [parseIntDigits_padStart, parseIntDigits_repr]

/-- The zero-padded rendering of a number below `10 ^ 12` is exactly twelve
characters long. -/
theorem pad12_length {m : Nat} (hm : m < 10 ^ 12) :
    (padStart (Nat.repr m) 12 '0').length = 12 := by
  rw [padStart_length]
  have := repr_length_le (k := 12) (by omega) hm
  omega

/-- Every character of the zero-padded rendering is a decimal digit. -/
theorem pad_repr_digits (m n : Nat) :
    ∀ c ∈ (padStart (Nat.repr m) n '0').data, c.isDigit = true := by
  rw [padStart_data]
  intro c hc
  rcases List.mem_append.mp hc with hc | hc
  · rw [List.eq_of_mem_replicate hc]
    rfl
  · exact (repr_spec m).2.1 c hc

end PadParseFacts

section GenerateFacts

/-- The batch has exactly `qty` entries. -/
theorem generateEans_length (v q : Nat) : (generateEans v q).length = q := by
  simp [generateEans]

/-- The `i`-th entry of the batch. -/
theorem generateEans_getD (v q i : Nat) (hi : i < q) :
    (generateEans v q).getD i default =
      { code := padStart (Nat.repr (v + i)) 12 '0' ++
          calculateEanCheckDigit (padStart (Nat.repr (v + i)) 12 '0')
        baseCode := padStart (Nat.repr (v + i)) 12 '0' } := by
  simp [generateEans, List.getD_eq_getElem?_getD, List.getElem?_range hi]

/-- The numeric values of the produced base codes form the contiguous run
`v, v + 1, …, v + q - 1`. -/
theorem generateEans_map_parse (v q : Nat) :
    (generateEans v q).map (fun e => parseIntDigits e.baseCode) =
      List.range' v q := by
  rw [List.range'_eq_map_range]
  rw [generateEans, List.map_map]
  apply List.map_congr_left
  intro i _
  show parseIntDigits (padStart (Nat.repr (v + i)) 12 '0') = v + i
  exact parseIntDigits_pad_repr _ _

/-- The last produced base code of a non-empty batch. -/
theorem lastGeneratedBase_generateEans (v q : Nat) (hq : 0 < q) :
    lastGeneratedBase (generateEans v q) =
      padStart (Nat.repr (v + (q - 1))) 12 '0' := by
  show ((generateEans v q).getD ((generateEans v q).length - 1) default).baseCode = _
  rw [generateEans_length, generateEans_getD v q (q - 1) (by omega)]

end GenerateFacts

section CheckDigitFacts

/-- `Number` of a decimal digit character is its value. -/
theorem jsNumberOfChar_digit {c : Char} (h : c.isDigit = true) :
    jsNumberOfChar c = some (digitVal c) := by
  rw [jsNumberOfChar, if_pos h]

/-- The two renderings of the position weight agree. -/
theorem weight_comm (i : Nat) :
    (if i % 2 = 1 then 3 else 1) = (if i % 2 = 0 then 1 else 3) := by
  rcases Nat.mod_two_eq_zero_or_one i with h | h <;> simp [h]

/-- On an all-digit character list, the possibly-`NaN` weighted sum of the
check-digit loop is the plain weighted sum of the digit values. -/
theorem optSum_eq_some (ds : List Char) (hdig : ∀ c ∈ ds, c.isDigit = true) :
    ∀ n, n ≤ ds.length →
    (List.range n).foldl
      (fun s i => jsAdd s (jsMul ((ds.map jsNumberOfChar).getD i none)
        (some (if i % 2 = 0 then 1 else 3)))) (some 0) =
    some ((List.range n).foldl
      (fun acc i => acc + digitVal (ds.getD i '0') * (if i % 2 = 0 then 1 else 3)) 0) := by
  intro n hn
  induction n with
  | zero => rfl
  | succ n ih =>
    have hlt : n < ds.length := hn
    have hrange : List.range (n + 1) = List.range n ++ [n] := List.range_succ n
    rw [hrange, List.foldl_append, List.foldl_append, ih (by omega)]
    simp only [List.foldl_cons, List.foldl_nil]
    have hmap : (ds.map jsNumberOfChar).getD n none = some (digitVal (ds.getD n '0')) := by
      rw [List.getD_eq_getElem?_getD, List.getElem?_map,
        List.getElem?_eq_getElem hlt, List.getD_eq_getElem?_getD,
        List.getElem?_eq_getElem hlt]
      simp [jsNumberOfChar_digit (hdig _ (List.getElem_mem hlt))]
    rw [hmap]
    rfl

/-- On a 12-digit input the check digit routine renders
`(10 - S % 10) % 10` where `S` is the weighted sum of the twelve digit
values. -/
theorem calculateEanCheckDigit_eq (code : String) (hlen : 12 ≤ code.length)
    (hdig : ∀ c ∈ code.data, c.isDigit = true) :
    calculateEanCheckDigit code =
      Nat.repr ((10 - ((List.range 12).foldl
        (fun acc i => acc + digitVal (code.data.getD i '0') *
          (if i % 2 = 0 then 1 else 3)) 0) % 10) % 10) := by
  have hdl : 12 ≤ code.data.length := hlen
  show (match (List.range 12).foldl
      (fun s i => jsAdd s (jsMul ((code.data.map jsNumberOfChar).getD i none)
        (some (if i % 2 = 0 then 1 else 3)))) (some 0) with
    | none => "NaN"
    | some s => Nat.repr ((10 - s % 10) % 10)) = _
  rw [optSum_eq_some code.data hdig 12 (by omega)]

end CheckDigitFacts

section ClaimC1

/-- A number below ten renders as a single digit character carrying its
value. -/
theorem repr_digit_single {v : Nat} (hv : v ≤ 9) :
    ∃ c : Char, (Nat.repr v).data = [c] ∧ c.isDigit = true ∧ digitVal c = v := by
  obtain ⟨hne, hdig, hval, hlen⟩ := repr_spec v
  have hlen1 : (Nat.repr v).data.length = 1 := by
    have h0 : Nat.log 10 v = 0 := Nat.log_eq_zero_iff.mpr (Or.inl (by omega))
    have : (Nat.repr v).length = 1 := by rw [hlen, h0]
    exact this
  obtain ⟨c, hc⟩ := List.length_eq_one.mp hlen1
  refine ⟨c, hc, hdig c (by rw [hc]; exact List.mem_singleton_self c), ?_⟩
  have : parseIntDigits (Nat.repr v) = digitVal c := by
    show (Nat.repr v).data.foldl _ 0 = _
    rw [hc]
    show 0 * 10 + digitVal c = digitVal c
    omega
  omega

/-- Claim C1: for every 12-character all-digit string `B`,
`calculateEanCheckDigit B` renders a single digit in `[0, 9]`, and the
13-digit concatenation of `B` with that digit satisfies the EAN-13 checksum
invariant: the sum of `digit[i] * (3 if i odd else 1)` over `i in 0..12` is
congruent to `0` modulo `10`. -/
theorem checkDigit_valid (code : String) (hlen : code.length = 12)
    (hdig : ∀ c ∈ code.data, c.isDigit = true) :
    (∃ v : Nat, v ≤ 9 ∧ calculateEanCheckDigit code = Nat.repr v) ∧
      eanChecksum13 (code ++ calculateEanCheckDigit code) % 10 = 0 := by
  have hdl : code.data.length = 12 := hlen
  set S := (List.range 12).foldl
    (fun acc i => acc + digitVal (code.data.getD i '0') *
      (if i % 2 = 0 then 1 else 3)) 0 with hS
  have hcd : calculateEanCheckDigit code = Nat.repr ((10 - S % 10) % 10) :=
    calculateEanCheckDigit_eq code (by omega) hdig
  have hv9 : (10 - S % 10) % 10 ≤ 9 := by omega
  refine ⟨⟨(10 - S % 10) % 10, hv9, hcd⟩, ?_⟩
  obtain ⟨c, hc, hcdig, hcval⟩ := repr_digit_single hv9
  have hdata : (code ++ calculateEanCheckDigit code).data = code.data ++ [c] := by
    rw [hcd]
    show code.data ++ (Nat.repr ((10 - S % 10) % 10)).data = _
    rw [hc]
  rw [eanChecksum13, hdata]
  have h13 : List.range 13 = List.range 12 ++ [12] := List.range_succ 12
  rw [h13, List.foldl_append]
  simp only [List.foldl_cons, List.foldl_nil]
  have hgetD12 : (code.data ++ [c]).getD 12 '0' = c := by
    rw [List.getD_eq_getElem?_getD, List.getElem?_append_right (by omega)]
    rw [hdl]
    rfl
  have hfold12 : (List.range 12).foldl
      (fun acc i => acc + digitVal ((code.data ++ [c]).getD i '0') *
        (if i % 2 = 1 then 3 else 1)) 0 = S := by
    rw [hS]
    apply List.foldl_ext
    intro acc i hi
    have hi12 : i < 12 := List.mem_range.mp hi
    have : (code.data ++ [c]).getD i '0' = code.data.getD i '0' := by
      rw [List.getD_eq_getElem?_getD, List.getElem?_append_left (by omega),
        List.getD_eq_getElem?_getD]
    rw [this, weight_comm]
  rw [hfold12, hgetD12, hcval]
  have hmul : (10 - S % 10) % 10 * (if 12 % 2 = 1 then 3 else 1) =
      (10 - S % 10) % 10 := by norm_num
  rw [hmul]
  omega

/-- Witness for C1 at the base code from the source examples. -/
theorem checkDigit_valid_witness :
    "789428216684".length = 12 ∧ (∀ c ∈ "789428216684".data, c.isDigit = true) ∧
      ((∃ v : Nat, v ≤ 9 ∧ calculateEanCheckDigit "789428216684" = Nat.repr v) ∧
        eanChecksum13 ("789428216684" ++ calculateEanCheckDigit "789428216684") % 10 = 0) :=
  ⟨by decide, by decide, checkDigit_valid "789428216684" (by decide) (by decide)⟩

end ClaimC1

section ClaimC8

/-- Counterexample to claim C8 as stated: the check digit of
`"789428216684"` is `"3"`, not `"0"` (matching the worked verification in
the specification itself). -/
theorem checkDigit_789428216684_ne_zero :
    calculateEanCheckDigit "789428216684" ≠ "0" := by
  intro h
  have : calculateEanCheckDigit "789428216684" = "3" := by rfl
  rw [this] at h
  exact absurd h (by decide)

/-- Claim C8 (amended): `calculateEanCheckDigit "000000000000" = "0"` and
`calculateEanCheckDigit "789428216684" = "3"`, making the full code
`"7894282166843"`. -/
theorem checkDigit_concrete_values :
    calculateEanCheckDigit "000000000000" = "0" ∧
      calculateEanCheckDigit "789428216684" = "3" := by
  constructor <;> rfl

end ClaimC8

section ClaimC2

/-- Claim C2: for a valid 12-digit numeric start base and a quantity between
1 and 1000 that does not overflow twelve digits, the generation loop
produces exactly `qty` pairs; the `i`-th pair's base code is the numeric
value of the start base plus `i`, zero-padded to twelve digits, with the
full code its concatenation with the check digit; and the pairs are in
strictly ascending numeric order. -/
theorem generateEans_batch_spec (base : String) (qty : Nat)
    (hlen : base.length = 12) (hdig : ∀ c ∈ base.data, c.isDigit = true)
    (hq1 : 1 ≤ qty) (hq2 : qty ≤ 1000)
    (hov : parseIntDigits base + qty ≤ 10 ^ 12) :
    (generateEans (parseIntDigits base) qty).length = qty ∧
    (∀ i < qty,
      (generateEans (parseIntDigits base) qty).getD i default =
        { code := padStart (Nat.repr (parseIntDigits base + i)) 12 '0' ++
            calculateEanCheckDigit
              (padStart (Nat.repr (parseIntDigits base + i)) 12 '0')
          baseCode := padStart (Nat.repr (parseIntDigits base + i)) 12 '0' } ∧
      ((generateEans (parseIntDigits base) qty).getD i default).baseCode.length = 12 ∧
      parseIntDigits (((generateEans (parseIntDigits base) qty).getD i default).baseCode) =
        parseIntDigits base + i) ∧
    (∀ i j, i < j → j < qty →
      parseIntDigits (((generateEans (parseIntDigits base) qty).getD i default).baseCode) <
        parseIntDigits (((generateEans (parseIntDigits base) qty).getD j default).baseCode)) := by
  refine ⟨generateEans_length _ _, fun i hi => ?_, fun i j hij hj => ?_⟩
  · rw [generateEans_getD _ _ _ hi]
    refine ⟨rfl, ?_, parseIntDigits_pad_repr _ _⟩
    exact pad12_length (by omega)
  · rw [generateEans_getD _ _ _ (by omega : i < qty), generateEans_getD _ _ _ hj]
    show parseIntDigits (padStart _ 12 '0') < parseIntDigits (padStart _ 12 '0')
    rw [parseIntDigits_pad_repr, parseIntDigits_pad_repr]
    omega

/-- Witness for C2 at the example of the specification:
`generateBatch("000000000000", 3)`. -/
theorem generateEans_batch_spec_witness :
    ("000000000000".length = 12 ∧ (∀ c ∈ "000000000000".data, c.isDigit = true) ∧
      1 ≤ 3 ∧ 3 ≤ 1000 ∧ parseIntDigits "000000000000" + 3 ≤ 10 ^ 12) ∧
    ((generateEans (parseIntDigits "000000000000") 3).length = 3 ∧
    (∀ i < 3,
      (generateEans (parseIntDigits "000000000000") 3).getD i default =
        { code := padStart (Nat.repr (parseIntDigits "000000000000" + i)) 12 '0' ++
            calculateEanCheckDigit
              (padStart (Nat.repr (parseIntDigits "000000000000" + i)) 12 '0')
          baseCode := padStart (Nat.repr (parseIntDigits "000000000000" + i)) 12 '0' } ∧
      ((generateEans (parseIntDigits "000000000000") 3).getD i default).baseCode.length = 12 ∧
      parseIntDigits (((generateEans (parseIntDigits "000000000000") 3).getD i default).baseCode) =
        parseIntDigits "000000000000" + i) ∧
    (∀ i j, i < j → j < 3 →
      parseIntDigits (((generateEans (parseIntDigits "000000000000") 3).getD i default).baseCode) <
        parseIntDigits (((generateEans (parseIntDigits "000000000000") 3).getD j default).baseCode))) :=
  ⟨⟨by decide, by decide, by decide, by decide, by decide⟩,
    generateEans_batch_spec "000000000000" 3 (by decide) (by decide)
      (by decide) (by decide) (by decide)⟩

end ClaimC2

section ClaimC3

/-- Claim C3: after a successful batch, the cursor written back by the
database-backed variant is the numeric value of the last produced base code
plus one — that is, the start value plus the quantity — zero-padded to
twelve digits. -/
theorem cursor_advance_spec (qty : Int) (st : CloudGenState)
    (hq1 : 1 ≤ qty) (hq2 : qty ≤ 1000) :
    (generateEansCloud qty true st).selectedBase.last_base_code =
      padStart (Nat.repr (parseIntDigits st.selectedBase.last_base_code + qty.toNat)) 12 '0' ∧
    parseIntDigits ((generateEansCloud qty true st).selectedBase.last_base_code) =
      parseIntDigits st.selectedBase.last_base_code + qty.toNat ∧
    parseIntDigits (lastGeneratedBase
        (generateEans (parseIntDigits st.selectedBase.last_base_code) qty.toNat)) + 1 =
      parseIntDigits st.selectedBase.last_base_code + qty.toNat := by
  have hqn : 1 ≤ qty.toNat := by omega
  have hlast : parseIntDigits (lastGeneratedBase
      (generateEans (parseIntDigits st.selectedBase.last_base_code) qty.toNat)) + 1 =
      parseIntDigits st.selectedBase.last_base_code + qty.toNat := by
    rw [lastGeneratedBase_generateEans _ _ (by omega), parseIntDigits_pad_repr]
    omega
  have hcloud : (generateEansCloud qty true st).selectedBase.last_base_code =
      padStart (Nat.repr (parseIntDigits (lastGeneratedBase
        (generateEans (parseIntDigits st.selectedBase.last_base_code) qty.toNat)) + 1)) 12 '0' := by
    rw [generateEansCloud, if_neg (by omega), if_pos rfl]
  refine ⟨?_, ?_, hlast⟩
  · rw [hcloud, hlast]
  · rw [hcloud, parseIntDigits_pad_repr, hlast]

/-- Witness for C3: a batch of three from the cursor `"000000000000"`. -/
theorem cursor_advance_spec_witness :
    (1 ≤ (3 : Int) ∧ (3 : Int) ≤ 1000) ∧
    ((generateEansCloud 3 true
        ⟨[], ⟨1, "b", "42821", "000000000000"⟩, [], false, false⟩).selectedBase.last_base_code =
      padStart (Nat.repr (parseIntDigits "000000000000" + (3 : Int).toNat)) 12 '0' ∧
    parseIntDigits ((generateEansCloud 3 true
        ⟨[], ⟨1, "b", "42821", "000000000000"⟩, [], false, false⟩).selectedBase.last_base_code) =
      parseIntDigits "000000000000" + (3 : Int).toNat ∧
    parseIntDigits (lastGeneratedBase
        (generateEans (parseIntDigits "000000000000") (3 : Int).toNat)) + 1 =
      parseIntDigits "000000000000" + (3 : Int).toNat) :=
  ⟨⟨by decide, by decide⟩, cursor_advance_spec 3
    ⟨[], ⟨1, "b", "42821", "000000000000"⟩, [], false, false⟩
    (by decide) (by decide)⟩

end ClaimC3

section ClaimC5

/-- Claim C5: starting a second batch from the first batch's advanced
cursor yields base codes disjoint from the first batch, and the two batches
together are exactly the contiguous ascending run of `q1 + q2` values from
the start value, with no gaps and no overlaps. -/
theorem two_batch_contiguous (base : String) (q1 q2 : Nat)
    (hlen : base.length = 12) (hdig : ∀ c ∈ base.data, c.isDigit = true)
    (h11 : 1 ≤ q1) (h12 : q1 ≤ 1000) (h21 : 1 ≤ q2) (h22 : q2 ≤ 1000) :
    ((generateEans (parseIntDigits base) q1 ++
        generateEans (parseIntDigits (nextBaseAfter (parseIntDigits base) q1)) q2).map
      fun e => parseIntDigits e.baseCode) =
      List.range' (parseIntDigits base) (q1 + q2) ∧
    ∀ e1 ∈ generateEans (parseIntDigits base) q1,
      ∀ e2 ∈ generateEans (parseIntDigits (nextBaseAfter (parseIntDigits base) q1)) q2,
        e1.baseCode ≠ e2.baseCode := by
  have hnext : parseIntDigits (nextBaseAfter (parseIntDigits base) q1) =
      parseIntDigits base + q1 := by
    rw [nextBaseAfter, parseIntDigits_pad_repr,
      lastGeneratedBase_generateEans _ _ (by omega), parseIntDigits_pad_repr]
    omega
  constructor
  · rw [List.map_append, generateEans_map_parse, hnext, generateEans_map_parse,
      List.range'_append_1, Nat.add_comm q2 q1]
  · intro e1 h1 e2 h2 heq
    have hv1 : parseIntDigits e1.baseCode ∈ List.range' (parseIntDigits base) q1 := by
      rw [← generateEans_map_parse (parseIntDigits base) q1]
      exact List.mem_map_of_mem _ h1
    have hv2 : parseIntDigits e2.baseCode ∈
        List.range' (parseIntDigits base + q1) q2 := by
      rw [← generateEans_map_parse (parseIntDigits base + q1) q2, ← hnext]
      exact List.mem_map_of_mem _ h2
    obtain ⟨i, hi, hvi⟩ := List.mem_range'.mp hv1
    obtain ⟨j, hj, hvj⟩ := List.mem_range'.mp hv2
    rw [heq] at hvi
    omega

/-- Witness for C5: two batches of three and two codes from
`"000000000000"`. -/
theorem two_batch_contiguous_witness :
    ("000000000000".length = 12 ∧ (∀ c ∈ "000000000000".data, c.isDigit = true) ∧
      1 ≤ 3 ∧ 3 ≤ 1000 ∧ 1 ≤ 2 ∧ 2 ≤ 1000) ∧
    (((generateEans (parseIntDigits "000000000000") 3 ++
        generateEans (parseIntDigits (nextBaseAfter (parseIntDigits "000000000000") 3)) 2).map
      fun e => parseIntDigits e.baseCode) =
      List.range' (parseIntDigits "000000000000") (3 + 2) ∧
    ∀ e1 ∈ generateEans (parseIntDigits "000000000000") 3,
      ∀ e2 ∈ generateEans (parseIntDigits (nextBaseAfter (parseIntDigits "000000000000") 3)) 2,
        e1.baseCode ≠ e2.baseCode) :=
  ⟨⟨by decide, by decide, by decide, by decide, by decide, by decide⟩,
    two_batch_contiguous "000000000000" 3 2 (by decide) (by decide)
      (by decide) (by decide) (by decide) (by decide)⟩

end ClaimC5

section ClaimC4

/-- Claim C4: a quantity outside `[1, 1000]` or a base code that is not
exactly twelve decimal digits is rejected with a validation error and
produces no codes: the state — displayed codes and persisted cursor — is
returned unchanged and the error flag is raised. -/
theorem validation_rejects (baseCode : String) (qty : Int) (st : GenState)
    (h : qty < 1 ∨ qty > 1000 ∨ baseCode.length ≠ 12 ∨
      jsTestAllDigits baseCode = false) :
    generateEansStep baseCode qty st = (st, true) := by
  rw [generateEansStep]
  by_cases h1 : baseCode.length ≠ 12
  · rw [if_pos h1]
  · rw [if_neg h1]
    by_cases h2 : ¬ jsTestAllDigits baseCode = true
    · rw [if_pos h2]
    · rw [if_neg h2]
      have hq : qty < 1 ∨ qty > 1000 := by
        rcases h with hh | hh | hh | hh
        · exact Or.inl hh
        · exact Or.inr hh
        · exact absurd hh h1
        · rw [Decidable.not_not] at h2
          rw [h2] at hh
          exact Bool.noConfusion hh
      rw [if_pos hq]

/-- Witness for C4: quantity 1001 with a well-formed base code is rejected
and the state is untouched. -/
theorem validation_rejects_witness :
    ((1001 : Int) < 1 ∨ (1001 : Int) > 1000 ∨ "789428216684".length ≠ 12 ∨
      jsTestAllDigits "789428216684" = false) ∧
    generateEansStep "789428216684" 1001 ⟨"x", []⟩ = (⟨"x", []⟩, true) :=
  ⟨Or.inr (Or.inl (by decide)),
    validation_rejects "789428216684" 1001 ⟨"x", []⟩ (Or.inr (Or.inl (by decide)))⟩

end ClaimC4

section ClaimC7

/-- Claim C7: when the cursor write fails after the batch is computed, the
batch is still displayed, the locally held cursor state (the selected base
and its saved-bases entry) is not advanced, and the save-failure warning
toast is raised — the failed write is never silently dropped. -/
theorem write_failure_handling (qty : Int) (st : CloudGenState)
    (hq1 : 1 ≤ qty) (hq2 : qty ≤ 1000) :
    (generateEansCloud qty false st).generatedCodes =
      generateEans (parseIntDigits st.selectedBase.last_base_code) qty.toNat ∧
    (generateEansCloud qty false st).selectedBase = st.selectedBase ∧
    (generateEansCloud qty false st).savedBases = st.savedBases ∧
    (generateEansCloud qty false st).errorToast = true := by
  rw [generateEansCloud, if_neg (by omega)]
  exact ⟨rfl, rfl, rfl, rfl⟩

/-- Witness for C7: a failed write for a batch of one from
`"000000000000"`. -/
theorem write_failure_handling_witness :
    (1 ≤ (1 : Int) ∧ (1 : Int) ≤ 1000) ∧
    ((generateEansCloud 1 false
        ⟨[], ⟨1, "b", "42821", "000000000000"⟩, [], false, false⟩).generatedCodes =
      generateEans (parseIntDigits "000000000000") (1 : Int).toNat ∧
    (generateEansCloud 1 false
        ⟨[], ⟨1, "b", "42821", "000000000000"⟩, [], false, false⟩).selectedBase =
      ⟨1, "b", "42821", "000000000000"⟩ ∧
    (generateEansCloud 1 false
        ⟨[], ⟨1, "b", "42821", "000000000000"⟩, [], false, false⟩).savedBases = [] ∧
    (generateEansCloud 1 false
        ⟨[], ⟨1, "b", "42821", "000000000000"⟩, [], false, false⟩).errorToast = true) :=
  ⟨⟨by decide, by decide⟩, write_failure_handling 1
    ⟨[], ⟨1, "b", "42821", "000000000000"⟩, [], false, false⟩ (by decide) (by decide)⟩

end ClaimC7

section ClaimC6

/-- The `i`-th entry of a prefixed batch. -/
theorem generateEansPrefixed_getD (pfx cnpjDigits : String) (s q i : Nat)
    (hi : i < q) :
    (generateEansPrefixed pfx cnpjDigits s q).getD i default =
      { code := (pfx ++ cnpjDigits ++ padStart (Nat.repr (s + i)) 4 '0') ++
          calculateEanCheckDigit (pfx ++ cnpjDigits ++ padStart (Nat.repr (s + i)) 4 '0')
        baseCode := pfx ++ cnpjDigits ++ padStart (Nat.repr (s + i)) 4 '0' } := by
  simp [generateEansPrefixed, List.getD_eq_getElem?_getD, List.getElem?_range hi]

/-- The prefixed batch has exactly `qty` entries. -/
theorem generateEansPrefixed_length (pfx cnpjDigits : String) (s q : Nat) :
    (generateEansPrefixed pfx cnpjDigits s q).length = q := by
  simp [generateEansPrefixed]

/-- On valid inputs the CNPJ-variant handler generates from the cursor-derived
start and persists the last generated base code. -/
theorem generateEansCnpjStep_success (pfx cnpjDigits : String) (qty : Int)
    (st : GenState) (hc : cnpjDigits.length = 5) (hq1 : 1 ≤ qty) (hq2 : qty ≤ 1000) :
    generateEansCnpjStep pfx cnpjDigits qty st =
      (⟨lastGeneratedBase (generateEansPrefixed pfx cnpjDigits
          (startNumberForCursor st.lastBaseCode pfx cnpjDigits) qty.toNat),
        generateEansPrefixed pfx cnpjDigits
          (startNumberForCursor st.lastBaseCode pfx cnpjDigits) qty.toNat⟩, false) := by
  rw [generateEansCnpjStep, if_neg (by omega), if_neg (by omega)]

/-- A matching cursor continues the tail: when the stored cursor is the
configured head followed by a 4-character tail, the next start number is the
parsed tail plus one. -/
theorem startNumberForCursor_match (pfx cnpjDigits tail : String)
    (hp : pfx.length = 3) (hc : cnpjDigits.length = 5) (ht : tail.length = 4) :
    startNumberForCursor (pfx ++ cnpjDigits ++ tail) pfx cnpjDigits =
      parseIntDigits tail + 1 := by
  have hpd : pfx.data.length = 3 := hp
  have hcd : cnpjDigits.data.length = 5 := hc
  have htd : tail.data.length = 4 := ht
  have hdata : (pfx ++ cnpjDigits ++ tail).data =
      (pfx.data ++ cnpjDigits.data) ++ tail.data := by
    rw [String.data_append, String.data_append, List.append_assoc]
  have hne : pfx ++ cnpjDigits ++ tail ≠ "" := by
    intro h0
    have hl : (pfx ++ cnpjDigits ++ tail).length = 0 := by rw [h0]; rfl
    rw [String.length_append, String.length_append] at hl
    omega
  have hsw : jsStartsWith (pfx ++ cnpjDigits ++ tail) (pfx ++ cnpjDigits) = true := by
    rw [jsStartsWith, decide_eq_true_eq, hdata, String.data_append]
    exact List.take_left _ _
  have hslice : strSlice (pfx ++ cnpjDigits ++ tail) 8 12 = tail := by
    rw [strSlice, hdata]
    have h8 : (pfx.data ++ cnpjDigits.data).length = 8 := by
      rw [List.length_append]
      omega
    rw [List.drop_left' h8, List.take_of_length_le (by omega)]
  rw [startNumberForCursor, if_pos ⟨hne, hsw⟩, hslice]

/-- A missing or non-matching cursor resets the start number to zero. -/
theorem startNumberForCursor_reset (lastBase pfx cnpjDigits : String)
    (h : lastBase = "" ∨ jsStartsWith lastBase (pfx ++ cnpjDigits) = false) :
    startNumberForCursor lastBase pfx cnpjDigits = 0 := by
  rw [startNumberForCursor, if_neg]
  rintro ⟨h1, h2⟩
  rcases h with h | h
  · exact h1 h
  · rw [h] at h2
    exact Bool.noConfusion h2

/-- Claim C6: in the prefixed-identifier variant, a persisted cursor whose
leading eight characters are the configured 3-digit country code and the
5-digit identifier makes the next batch's tail start at the stored tail
plus one, while a missing cursor or one with a different head resets the
tail so that the first generated tail is `"0000"`. -/
theorem cursor_identifier_check (pfx cnpjDigits tail lastBase : String)
    (gcs : List EanCode) (qty : Int)
    (hp : pfx.length = 3) (hc : cnpjDigits.length = 5)
    (hq1 : 1 ≤ qty) (hq2 : qty ≤ 1000) :
    ((lastBase = pfx ++ cnpjDigits ++ tail ∧ tail.length = 4) →
      startNumberForCursor lastBase pfx cnpjDigits = parseIntDigits tail + 1 ∧
      ((generateEansCnpjStep pfx cnpjDigits qty ⟨lastBase, gcs⟩).1.generatedCodes.getD 0
          default).baseCode =
        pfx ++ cnpjDigits ++ padStart (Nat.repr (parseIntDigits tail + 1)) 4 '0') ∧
    ((lastBase = "" ∨ jsStartsWith lastBase (pfx ++ cnpjDigits) = false) →
      startNumberForCursor lastBase pfx cnpjDigits = 0 ∧
      ((generateEansCnpjStep pfx cnpjDigits qty ⟨lastBase, gcs⟩).1.generatedCodes.getD 0
          default).baseCode = pfx ++ cnpjDigits ++ "0000") := by
  have hq0 : 0 < qty.toNat := by omega
  constructor
  · rintro ⟨rfl, ht⟩
    have hs : startNumberForCursor (pfx ++ cnpjDigits ++ tail) pfx cnpjDigits =
        parseIntDigits tail + 1 := startNumberForCursor_match pfx cnpjDigits tail hp hc ht
    refine ⟨hs, ?_⟩
    rw [generateEansCnpjStep_success pfx cnpjDigits qty _ hc hq1 hq2]
    show ((generateEansPrefixed pfx cnpjDigits
        (startNumberForCursor (pfx ++ cnpjDigits ++ tail) pfx cnpjDigits)
        qty.toNat).getD 0 default).baseCode = _
    rw [generateEansPrefixed_getD pfx cnpjDigits _ qty.toNat 0 hq0, hs, Nat.add_zero]
  · intro h
    have hs : startNumberForCursor lastBase pfx cnpjDigits = 0 :=
      startNumberForCursor_reset lastBase pfx cnpjDigits h
    refine ⟨hs, ?_⟩
    rw [generateEansCnpjStep_success pfx cnpjDigits qty _ hc hq1 hq2]
    show ((generateEansPrefixed pfx cnpjDigits
        (startNumberForCursor lastBase pfx cnpjDigits) qty.toNat).getD 0
        default).baseCode = _
    rw [generateEansPrefixed_getD pfx cnpjDigits _ qty.toNat 0 hq0, hs, Nat.add_zero,
      show padStart (Nat.repr 0) 4 '0' = "0000" from rfl]

/-- Witness for C6 with country code `789`, identifier `42821`, stored tail
`0007` and a batch of one. -/
theorem cursor_identifier_check_witness :
    ("789".length = 3 ∧ "42821".length = 5 ∧ 1 ≤ (1 : Int) ∧ (1 : Int) ≤ 1000) ∧
    ((("789428210007" = "789" ++ "42821" ++ "0007" ∧ "0007".length = 4) →
      startNumberForCursor "789428210007" "789" "42821" = parseIntDigits "0007" + 1 ∧
      ((generateEansCnpjStep "789" "42821" 1 ⟨"789428210007", []⟩).1.generatedCodes.getD 0
          default).baseCode =
        "789" ++ "42821" ++ padStart (Nat.repr (parseIntDigits "0007" + 1)) 4 '0') ∧
    (("789428210007" = "" ∨ jsStartsWith "789428210007" ("789" ++ "42821") = false) →
      startNumberForCursor "789428210007" "789" "42821" = 0 ∧
      ((generateEansCnpjStep "789" "42821" 1 ⟨"789428210007", []⟩).1.generatedCodes.getD 0
          default).baseCode = "789" ++ "42821" ++ "0000")) :=
  ⟨⟨by decide, by decide, by decide, by decide⟩,
    cursor_identifier_check "789" "42821" "0007" "789428210007" [] 1
      (by decide) (by decide) (by decide) (by decide)⟩

end ClaimC6

section ClaimC9

/-- `NaN` absorbs on the right of JS addition. -/
theorem jsAdd_none_right (s : Option Nat) : jsAdd s none = none := by
  cases s <;> rfl

/-- `NaN` absorbs on the left of JS addition. -/
theorem jsAdd_none_left (t : Option Nat) : jsAdd none t = none := by
  cases t <;> rfl

/-- `NaN` absorbs on the left of JS multiplication. -/
theorem jsMul_none_left (t : Option Nat) : jsMul none t = none := by
  cases t <;> rfl

/-- `Number` of a character that is neither a digit nor whitespace is
`NaN`. -/
theorem jsNumberOfChar_none {c : Char} (h1 : c.isDigit = false)
    (h2 : jsWhitespaceChar c = false) : jsNumberOfChar c = none := by
  rw [jsNumberOfChar, if_neg (by simp [h1]), if_neg (by simp [h2])]

/-- If any of the twelve read conversions is `NaN`, the whole weighted sum
is `NaN`. -/
theorem optSum_none (digits : List (Option Nat)) (i : Nat) (hi : i < 12)
    (hnone : digits.getD i none = none) :
    (List.range 12).foldl (fun s j => jsAdd s (jsMul (digits.getD j none)
      (some (if j % 2 = 0 then 1 else 3)))) (some 0) = none := by
  have key : ∀ n, i < n → n ≤ 12 →
      (List.range n).foldl (fun s j => jsAdd s (jsMul (digits.getD j none)
        (some (if j % 2 = 0 then 1 else 3)))) (some 0) = none := by
    intro n
    induction n with
    | zero => omega
    | succ n ih =>
      intro hin hn12
      rw [List.range_succ n, List.foldl_append]
      simp only [List.foldl_cons, List.foldl_nil]
      rcases Nat.lt_or_ge i n with hlt | hge
      · rw [ih hlt (by omega), jsAdd_none_left]
      · have : i = n := by omega
        subst this
        rw [hnone, jsMul_none_left, jsAdd_none_right]
  exact key 12 hi (Nat.le_refl _)

/-- Counterexample to claim C9 as stated: the first character of
`" 00000000000"` is a space — not a decimal digit — yet the JS number
conversion maps a whitespace character to `0`, so the check digit routine
still returns the single decimal digit `"0"`. -/
theorem whitespace_check_digit_cex :
    " 00000000000".length = 12 ∧ (' '.isDigit = false) ∧
      " 00000000000".data.getD 0 '0' = ' ' ∧
      calculateEanCheckDigit " 00000000000" = "0" ∧
      "0".length = 1 ∧ (∀ c ∈ "0".data, c.isDigit = true) :=
  ⟨by decide, by decide, by decide, by rfl, by decide, by decide⟩

/-- Claim C9 (amended): if the input is shorter than twelve characters, or
some character among the first twelve is neither a decimal digit nor a
whitespace character (whitespace converts to `0` under the JS number
conversion), then the `NaN` propagates through the weighted sum and
`calculateEanCheckDigit` returns `"NaN"`, which is not a single decimal
digit — so validation must happen before the call. -/
theorem nan_check_digit (code : String)
    (h : code.length < 12 ∨ ∃ i, i < 12 ∧ i < code.length ∧
      (code.data.getD i ' ').isDigit = false ∧
      jsWhitespaceChar (code.data.getD i ' ') = false) :
    calculateEanCheckDigit code = "NaN" ∧
      (calculateEanCheckDigit code).length ≠ 1 := by
  suffices hnan : calculateEanCheckDigit code = "NaN" by
    refine ⟨hnan, ?_⟩
    rw [hnan]
    decide
  obtain ⟨i, hi12, hnone⟩ :
      ∃ i, i < 12 ∧ (code.data.map jsNumberOfChar).getD i none = none := by
    rcases h with h | ⟨i, hi12, hilen, hdig, hws⟩
    · refine ⟨code.length, h, ?_⟩
      rw [List.getD_eq_getElem?_getD, List.getElem?_eq_none]
      · rfl
      · rw [List.length_map]
        exact Nat.le_refl _
    · have hilen2 : i < code.data.length := hilen
      refine ⟨i, hi12, ?_⟩
      have hgd : code.data.getD i ' ' = code.data[i] := by
        rw [List.getD_eq_getElem?_getD, List.getElem?_eq_getElem hilen2]
        rfl
      rw [hgd] at hdig hws
      rw [List.getD_eq_getElem?_getD, List.getElem?_map,
        List.getElem?_eq_getElem hilen2]
      show (some (jsNumberOfChar code.data[i])).getD none = none
      rw [jsNumberOfChar_none hdig hws]
      rfl
  show (match (List.range 12).foldl
      (fun s j => jsAdd s (jsMul ((code.data.map jsNumberOfChar).getD j none)
        (some (if j % 2 = 0 then 1 else 3)))) (some 0) with
    | none => "NaN"
    | some s => Nat.repr ((10 - s % 10) % 10)) = "NaN"
  rw [optSum_none _ i hi12 hnone]

/-- Witness for the amended C9: a six-character input yields `"NaN"`. -/
theorem nan_check_digit_witness :
    ("ABCDEF".length < 12 ∨ ∃ i, i < 12 ∧ i < "ABCDEF".length ∧
      ("ABCDEF".data.getD i ' ').isDigit = false ∧
      jsWhitespaceChar ("ABCDEF".data.getD i ' ') = false) ∧
    (calculateEanCheckDigit "ABCDEF" = "NaN" ∧
      (calculateEanCheckDigit "ABCDEF").length ≠ 1) :=
  ⟨Or.inl (by decide), nan_check_digit "ABCDEF" (Or.inl (by decide))⟩

end ClaimC9

section ClaimC10

/-- On an all-digit input of at least twelve characters the check digit is a
single character. -/
theorem checkDigit_length_one (code : String) (hlen : 12 ≤ code.length)
    (hdig : ∀ c ∈ code.data, c.isDigit = true) :
    (calculateEanCheckDigit code).length = 1 := by
  rw [calculateEanCheckDigit_eq code hlen hdig, repr_length,
    Nat.log_eq_zero_iff.mpr (Or.inl (by omega))]

/-- On valid inputs the free-variant handler generates the batch and
persists the last generated base code. -/
theorem generateEansStep_success (base : String) (qty : Int) (st : GenState)
    (h1 : base.length = 12) (h2 : jsTestAllDigits base = true)
    (hq1 : 1 ≤ qty) (hq2 : qty ≤ 1000) :
    generateEansStep base qty st =
      (⟨lastGeneratedBase (generateEans (parseIntDigits base) qty.toNat),
        generateEans (parseIntDigits base) qty.toNat⟩, false) := by
  rw [generateEansStep, if_neg (by omega), if_neg (by simp [h2]),
    if_neg (by omega)]

/-- The last produced base code of a non-empty prefixed batch. -/
theorem lastGeneratedBase_generateEansPrefixed (pfx cnpjDigits : String)
    (s q : Nat) (hq : 0 < q) :
    lastGeneratedBase (generateEansPrefixed pfx cnpjDigits s q) =
      pfx ++ cnpjDigits ++ padStart (Nat.repr (s + (q - 1))) 4 '0' := by
  show ((generateEansPrefixed pfx cnpjDigits s q).getD
      ((generateEansPrefixed pfx cnpjDigits s q).length - 1) default).baseCode = _
  rw [generateEansPrefixed_length,
    generateEansPrefixed_getD pfx cnpjDigits s q (q - 1) (by omega)]

/-- Claim C10: fixed-width overflow is silent.  In the free 12-digit variant
a batch whose values pass `999999999999` is neither rejected nor wrapped:
all `qty` codes are produced, the zero padding never truncates, so the last
base code is longer than 12 characters and its full code longer than 13,
and that oversized base code is persisted as the cursor with no error.  In
the prefixed variant a tail passing `9999` likewise yields a tail longer
than 4 characters, a base code longer than 12, and the oversized cursor is
persisted with no error. -/
theorem overflow_silent (base pfx cnpjDigits : String) (qty : Int)
    (st st2 : GenState) (hq1 : 1 ≤ qty) (hq2 : qty ≤ 1000) :
    ((base.length = 12 ∧ jsTestAllDigits base = true ∧
        10 ^ 12 < parseIntDigits base + qty.toNat) →
      (generateEansStep base qty st).2 = false ∧
      (generateEansStep base qty st).1.generatedCodes.length = qty.toNat ∧
      12 < (lastGeneratedBase (generateEansStep base qty st).1.generatedCodes).length ∧
      13 < ((generateEansStep base qty st).1.generatedCodes.getD
        (qty.toNat - 1) default).code.length ∧
      (generateEansStep base qty st).1.lastBaseCode =
        lastGeneratedBase (generateEansStep base qty st).1.generatedCodes) ∧
    ((cnpjDigits.length = 5 ∧ pfx.length = 3 ∧
        (∀ c ∈ pfx.data, c.isDigit = true) ∧
        (∀ c ∈ cnpjDigits.data, c.isDigit = true) ∧
        10 ^ 4 + 1 ≤ startNumberForCursor st2.lastBaseCode pfx cnpjDigits + qty.toNat) →
      (generateEansCnpjStep pfx cnpjDigits qty st2).2 = false ∧
      (generateEansCnpjStep pfx cnpjDigits qty st2).1.generatedCodes.length = qty.toNat ∧
      4 < (padStart (Nat.repr (startNumberForCursor st2.lastBaseCode pfx cnpjDigits +
        (qty.toNat - 1))) 4 '0').length ∧
      12 < (lastGeneratedBase
        (generateEansCnpjStep pfx cnpjDigits qty st2).1.generatedCodes).length ∧
      13 < ((generateEansCnpjStep pfx cnpjDigits qty st2).1.generatedCodes.getD
        (qty.toNat - 1) default).code.length ∧
      (generateEansCnpjStep pfx cnpjDigits qty st2).1.lastBaseCode =
        lastGeneratedBase (generateEansCnpjStep pfx cnpjDigits qty st2).1.generatedCodes) := by
  constructor
  · rintro ⟨h1, h2, hov⟩
    rw [generateEansStep_success base qty st h1 h2 hq1 hq2]
    have hlast : 10 ^ 12 ≤ parseIntDigits base + (qty.toNat - 1) := by omega
    have hrl := repr_length_gt (k := 12) hlast
    refine ⟨rfl, generateEans_length _ _, ?_, ?_, rfl⟩
    · show 12 < (lastGeneratedBase (generateEans (parseIntDigits base) qty.toNat)).length
      rw [lastGeneratedBase_generateEans _ _ (by omega), padStart_length]
      omega
    · show 13 < ((generateEans (parseIntDigits base) qty.toNat).getD
        (qty.toNat - 1) default).code.length
      rw [generateEans_getD _ _ _ (by omega : qty.toNat - 1 < qty.toNat)]
      show 13 < (padStart (Nat.repr (parseIntDigits base + (qty.toNat - 1))) 12 '0' ++
        calculateEanCheckDigit (padStart (Nat.repr (parseIntDigits base +
          (qty.toNat - 1))) 12 '0')).length
      rw [String.length_append,
        checkDigit_length_one _ (by rw [padStart_length]; omega) (pad_repr_digits _ _),
        padStart_length]
      omega
  · rintro ⟨hc, hp, hpd, hcd, hov⟩
    rw [generateEansCnpjStep_success pfx cnpjDigits qty st2 hc hq1 hq2]
    have hlast : 10 ^ 4 ≤ startNumberForCursor st2.lastBaseCode pfx cnpjDigits +
        (qty.toNat - 1) := by omega
    have hrl := repr_length_gt (k := 4) hlast
    have htail : 4 < (padStart (Nat.repr (startNumberForCursor st2.lastBaseCode pfx
        cnpjDigits + (qty.toNat - 1))) 4 '0').length := by
      rw [padStart_length]
      omega
    have hbaselen : 12 < (pfx ++ cnpjDigits ++ padStart
        (Nat.repr (startNumberForCursor st2.lastBaseCode pfx cnpjDigits +
          (qty.toNat - 1))) 4 '0').length := by
      rw [String.length_append, String.length_append]
      omega
    have hbasedig : ∀ c ∈ (pfx ++ cnpjDigits ++ padStart
        (Nat.repr (startNumberForCursor st2.lastBaseCode pfx cnpjDigits +
          (qty.toNat - 1))) 4 '0').data, c.isDigit = true := by
      intro c hcmem
      have hsplit : (pfx ++ cnpjDigits ++ padStart
          (Nat.repr (startNumberForCursor st2.lastBaseCode pfx cnpjDigits +
            (qty.toNat - 1))) 4 '0').data =
          (pfx.data ++ cnpjDigits.data) ++ (padStart
          (Nat.repr (startNumberForCursor st2.lastBaseCode pfx cnpjDigits +
            (qty.toNat - 1))) 4 '0').data := rfl
      rw [hsplit] at hcmem
      rcases List.mem_append.mp hcmem with hm | hm
      · rcases List.mem_append.mp hm with hm2 | hm2
        · exact hpd c hm2
        · exact hcd c hm2
      · exact pad_repr_digits _ _ c hm
    refine ⟨rfl, generateEansPrefixed_length _ _ _ _, htail, ?_, ?_, rfl⟩
    · show 12 < (lastGeneratedBase (generateEansPrefixed pfx cnpjDigits
        (startNumberForCursor st2.lastBaseCode pfx cnpjDigits) qty.toNat)).length
      rw [lastGeneratedBase_generateEansPrefixed _ _ _ _ (by omega)]
      exact hbaselen
    · show 13 < ((generateEansPrefixed pfx cnpjDigits
        (startNumberForCursor st2.lastBaseCode pfx cnpjDigits) qty.toNat).getD
        (qty.toNat - 1) default).code.length
      rw [generateEansPrefixed_getD _ _ _ _ _ (by omega : qty.toNat - 1 < qty.toNat)]
      show 13 < ((pfx ++ cnpjDigits ++ padStart (Nat.repr
          (startNumberForCursor st2.lastBaseCode pfx cnpjDigits + (qty.toNat - 1))) 4 '0') ++
        calculateEanCheckDigit (pfx ++ cnpjDigits ++ padStart (Nat.repr
          (startNumberForCursor st2.lastBaseCode pfx cnpjDigits + (qty.toNat - 1))) 4 '0')).length
      rw [String.length_append,
        checkDigit_length_one _ (by omega) hbasedig]
      omega

/-- Witness for C10: a batch of two from base `999999999999` in the free
variant, and a batch of two above stored tail `9999` in the prefixed
variant. -/
theorem overflow_silent_witness :
    (1 ≤ (2 : Int) ∧ (2 : Int) ≤ 1000) ∧
    ((generateEansStep "999999999999" 2 ⟨"", []⟩).2 = false ∧
      (generateEansStep "999999999999" 2 ⟨"", []⟩).1.generatedCodes.length = (2 : Int).toNat ∧
      12 < (lastGeneratedBase
        (generateEansStep "999999999999" 2 ⟨"", []⟩).1.generatedCodes).length ∧
      13 < ((generateEansStep "999999999999" 2 ⟨"", []⟩).1.generatedCodes.getD
        ((2 : Int).toNat - 1) default).code.length ∧
      (generateEansStep "999999999999" 2 ⟨"", []⟩).1.lastBaseCode =
        lastGeneratedBase (generateEansStep "999999999999" 2 ⟨"", []⟩).1.generatedCodes) ∧
    ((generateEansCnpjStep "789" "42821" 2 ⟨"789428219999", []⟩).2 = false ∧
      (generateEansCnpjStep "789" "42821" 2
        ⟨"789428219999", []⟩).1.generatedCodes.length = (2 : Int).toNat ∧
      4 < (padStart (Nat.repr (startNumberForCursor "789428219999" "789" "42821" +
        ((2 : Int).toNat - 1))) 4 '0').length ∧
      12 < (lastGeneratedBase (generateEansCnpjStep "789" "42821" 2
        ⟨"789428219999", []⟩).1.generatedCodes).length ∧
      13 < ((generateEansCnpjStep "789" "42821" 2
        ⟨"789428219999", []⟩).1.generatedCodes.getD
        ((2 : Int).toNat - 1) default).code.length ∧
      (generateEansCnpjStep "789" "42821" 2 ⟨"789428219999", []⟩).1.lastBaseCode =
        lastGeneratedBase (generateEansCnpjStep "789" "42821" 2
          ⟨"789428219999", []⟩).1.generatedCodes) :=
  ⟨⟨by decide, by decide⟩,
    (overflow_silent "999999999999" "789" "42821" 2 ⟨"", []⟩ ⟨"789428219999", []⟩
      (by decide) (by decide)).1 ⟨by decide, by decide, by decide⟩,
    (overflow_silent "999999999999" "789" "42821" 2 ⟨"", []⟩ ⟨"789428219999", []⟩
      (by decide) (by decide)).2 ⟨by decide, by decide, by decide, by decide, by decide⟩⟩

end ClaimC10

